import Mathlib

/-!
# Verification of the Chomutice LIVE-data ingestion-and-synchronization pipeline

Shallow embedding of the pipeline sources:

* `scripts/live_chomutice_scrape.mjs` — the site scraper (listing extraction,
  homepage notice extraction, URL cleaning, artifact formatting);
* `scripts/upload-live-to-openai.mjs` — the sync orchestrator (artifact store,
  vector-store cleanup, upload, attach/poll).

Remote effects (HTTP fetches, the vector-store API, the filesystem and the
scraper subprocess) are modelled by explicit state passing: the network is a
`ScrapeWorld` record of per-page fetch results, the vector store is a list of
membership records, and the filesystem is an association list from paths to
contents.  Fallible code returns `Except`.
-/

namespace ObecChomutice

/-! ## Generic string machinery (UTF-16-free model: a string is its code points) -/

/-- Does the list start with the given pattern of characters? -/
def charsStartsWith : List Char → List Char → Bool
  | _, [] => true
  | [], _ :: _ => false
  | c :: cs, p :: ps => c == p && charsStartsWith cs ps

/-- Does the list contain the pattern as a contiguous run? -/
def charsContainsSub (pat : List Char) : List Char → Bool
  | [] => pat.isEmpty
  | c :: cs => charsStartsWith (c :: cs) pat || charsContainsSub pat cs

/-- Substring containment test on strings (the embedding of JavaScript
`String.prototype.includes`). -/
def containsSubstr (s pat : String) : Bool :=
  charsContainsSub pat.data s.data

/-- `s.startsWith(pre)` on strings. -/
def jsStartsWith (s pre : String) : Bool :=
  charsStartsWith s.data pre.data

/-- `s.toLowerCase()` as a character map over the code points (ASCII case
folding, which is all the pipeline's marker tokens need). -/
def strToLower (s : String) : String :=
  String.mk (s.data.map Char.toLower)

/-- The whitespace characters relevant to JavaScript `String.prototype.trim`
(the artifact template only ever puts plain spaces, tabs, carriage returns and
newlines at its boundaries). -/
def isJsWs (c : Char) : Bool :=
  c == ' ' || c == '\t' || c == '\n' || c == '\r'

/-- The embedding of JavaScript `String.prototype.trim`: drop leading and
trailing whitespace. -/
def jsTrim (s : String) : String :=
  String.mk (((s.data.dropWhile isJsWs).reverse.dropWhile isJsWs).reverse)

/-! ## Site scraper (`scripts/live_chomutice_scrape.mjs`)

HTML parsing (cheerio selectors) is not re-modelled: a fetched page enters the
model already parsed, either as the list of candidate paragraph texts (for the
homepage) or as the list of raw listing entries (title, href attribute, date,
perex) that the `$(".event.readable_item").each` loop visits. -/

/-- `const BASE = "https://www.obec-chomutice.cz"`. -/
def BASE : String := "https://www.obec-chomutice.cz"

/-- `const NEWS_LIMIT = 20`. -/
def NEWS_LIMIT : Nat := 20

/-- `const BROADCAST_LIMIT = 20`. -/
def BROADCAST_LIMIT : Nat := 20

/-- `const EVENTS_LIMIT = 10`. -/
def EVENTS_LIMIT : Nat := 10

/-- The characters removed from the end of a URL by
`stripTrailingPunctuationFromUrl`: the regex class in
`url.replace(/[)\]}.,;:!?…]+$/g, "")`. -/
def trailingPunctChars : List Char :=
  [')', ']', '\x7d', '.', ',', ';', ':', '!', '?', '…']

/-- Membership in the trailing-punctuation class. -/
def isTrailingPunct (c : Char) : Bool :=
  trailingPunctChars.contains c

/-- `function stripTrailingPunctuationFromUrl(url)`: empty input maps to the
empty string, otherwise the maximal run of trailing punctuation characters is
removed (the anchored regex `[)\]}.,;:!?…]+$` replaced by the empty string). -/
def stripTrailingPunctuationFromUrl (url : String) : String :=
  if url = "" then ""
  else String.mk ((url.data.reverse.dropWhile isTrailingPunct).reverse)

/-- `function absUrl(href)` of the scraper. -/
def absUrl (href : String) : String :=
  if href = "" then ""
  else if jsStartsWith href "http" then href
  else if jsStartsWith href "/" then BASE ++ href
  else BASE ++ "/" ++ href

/-- One parsed `.event.readable_item` element before validation: the cleaned
title text, the raw `href` attribute of the detail link (`none` when the
attribute is absent), the cleaned publication date and perex. -/
structure RawItem where
  title : String
  href : Option String
  date : String
  perex : String
deriving DecidableEq, Repr

/-- One retained listing item (`items.push({title, date, perex, url})`). -/
structure Item where
  title : String
  date : String
  perex : String
  url : String
deriving DecidableEq, Repr

/-- The item built from a raw element whose href attribute is `h`:
`{ title, date, perex, url: stripTrailingPunctuationFromUrl(absUrl(href)) }`. -/
def mkScrapedItem (r : RawItem) (h : String) : Item :=
  { title := r.title, date := r.date, perex := r.perex
    url := stripTrailingPunctuationFromUrl (absUrl h) }

/-- The body of the `.each` loop over parsed elements: an element with an
empty title or without a usable href (`if (!title || !href) return;`) is
silently skipped, every other element is pushed in document order. -/
def parseListingItems (raw : List RawItem) : List Item :=
  raw.filterMap (fun r =>
    match r.href with
    | none => none
    | some h => if r.title = "" ∨ h = "" then none else some (mkScrapedItem r h))

/-- Validity test matching the `if (!title || !href) return;` guard. -/
def isValidRaw (r : RawItem) : Bool :=
  match r.href with
  | none => false
  | some h => !(r.title == "") && !(h == "")

/-- The item a valid raw element turns into. -/
def itemOfRaw (r : RawItem) : Item :=
  mkScrapedItem r (r.href.getD "")

/-- `items.slice(0, limit)` after the `.each` loop: one listing's retained
items. -/
def scrapeListing (raw : List RawItem) (limit : Nat) : List Item :=
  (parseListingItems raw).take limit

/-- The keyword alternatives of the homepage-notice regex
`/(uzavřen|uzavřena|uzavřeno|mimořádn|omezen|dovolen)/i`. -/
def noticeKeywords : List String :=
  ["uzavřen", "uzavřena", "uzavřeno", "mimořádn", "omezen", "dovolen"]

/-- `keywords.test(text)`: case-insensitive containment of one of the
alternatives (ASCII case folding; every keyword is lowercase). -/
def keywordTest (t : String) : Bool :=
  noticeKeywords.any (fun k => containsSubstr (strToLower t) k)

/-- First-occurrence deduplication, the embedding of `[...new Set(notices)]`
(JavaScript `Set` iterates in insertion order). -/
def dedupKeepFirst (seen : List String) : List String → List String
  | [] => []
  | x :: xs =>
    if x ∈ seen then dedupKeepFirst seen xs
    else x :: dedupKeepFirst (x :: seen) xs

/-- `function extractHomepageNotice($)`: over the cleaned own-texts of the
`p, li` elements, keep the candidates that are nonempty, of length strictly
between 15 and 200, and matching the keyword set; deduplicate preserving
first occurrences; return at most 3 (`[...new Set(notices)].slice(0, 3)`). -/
def extractHomepageNotice (cands : List String) : List String :=
  let notices := cands.filter (fun t =>
    !(t == "") && decide (15 < t.length) && decide (t.length < 200) && keywordTest t)
  (dedupKeepFirst [] notices).take 3

/-! ### Artifact formatting (`formatList` and the output template of `main`) -/

/-- One rendered list entry of `formatList`. -/
def formatItem (i : Item) : String :=
  let out := "- " ++ i.title ++ (if i.date = "" then "" else " (" ++ i.date ++ ")")
  let out := if i.perex = "" then out else out ++ "\n  - Popis: " ++ i.perex
  if i.url = "" then out else out ++ "\n  - Odkaz: " ++ i.url

/-- `function formatList(items)`. -/
def formatList (items : List Item) : String :=
  if items.isEmpty then "- (nenalezeno)"
  else String.intercalate "\n" (items.map formatItem)

/-- One scraped listing as returned by `scrapeAktuality`/`scrapeRozhlas`/
`scrapeKalendar`: the listing URL plus the retained items. -/
structure Listing where
  url : String
  items : List Item
deriving DecidableEq, Repr

/-- The notices block of the template:
`notices.length ? notices.map((n) => "- " + n).join("\n") : "- (nenalezeno)"`. -/
def noticesBlock (notices : List String) : String :=
  if notices.isEmpty then "- (nenalezeno)"
  else String.intercalate "\n" (notices.map (fun n => "- " ++ n))

/-- The divider line of the template (44 box-drawing characters). -/
def dividerLine : String := String.mk (List.replicate 44 '─')

/-- The constant head of the template up to the generation timestamp. -/
def artifactHeaderPre : String := "\nOBEC CHOMUTICE – LIVE DATA\nVygenerováno: "

/-- The output template of the scraper's `main` (the template literal fed to
`.trim()` and then written to `OUT_PATH`), with the embedded `nowISO()`
timestamp as the `genTime` parameter. -/
def formatArtifact (genTime : String) (notices : List String)
    (aktuality rozhlas kalendar : Listing) : String :=
  jsTrim (artifactHeaderPre ++ genTime
    ++ "\nZdroj: " ++ BASE
    ++ "\n\n⚠️ POZNÁMKA:\n- Automaticky generovaný obsah (pravidelný update).\n- Při rozporu má přednost soubor 00_CORE (primární ověřené informace).\n\n"
    ++ dividerLine
    ++ "\n\n=== PROVOZNÍ UPOZORNĚNÍ / HOMEPAGE ===\n"
    ++ noticesBlock notices
    ++ "\n\n" ++ dividerLine
    ++ "\n\n=== AKTUALITY ===\nURL: " ++ aktuality.url
    ++ "\nPočet položek: " ++ toString aktuality.items.length
    ++ "\n\n" ++ formatList aktuality.items
    ++ "\n\n" ++ dividerLine
    ++ "\n\n=== HLÁŠENÍ ROZHLASU ===\nURL: " ++ rozhlas.url
    ++ "\nPočet položek: " ++ toString rozhlas.items.length
    ++ "\n\n" ++ formatList rozhlas.items
    ++ "\n\n" ++ dividerLine
    ++ "\n\n=== KALENDÁŘ AKCÍ ===\nURL: " ++ kalendar.url
    ++ "\nPočet položek: " ++ toString kalendar.items.length
    ++ "\n\n" ++ formatList kalendar.items
    ++ "\n")

/-! ### Fetching and the scraper's `main` -/

/-- `${BASE}/` — the homepage. -/
def homeUrl : String := BASE ++ "/"

/-- `${BASE}/aktuality-1/`. -/
def aktualityUrl : String := BASE ++ "/aktuality-1/"

/-- `${BASE}/hlaseni-rozhlasu/`. -/
def rozhlasUrl : String := BASE ++ "/hlaseni-rozhlasu/"

/-- `${BASE}/kalendar-akci/`. -/
def kalendarUrl : String := BASE ++ "/kalendar-akci/"

/-- The error thrown by `fetchHtml` on a non-2xx response:
`throw new Error(\x60Fetch failed ${res.status} ${url}\x60)` — it carries the
HTTP status and the failing URL. -/
def fetchFailMsg (status : Nat) (url : String) : String :=
  "Fetch failed " ++ toString status ++ " " ++ url

/-- The network as the scraper observes it: for each of the four pages, either
the parsed page content or the non-2xx status code on which `fetchHtml`
throws.  The homepage parses to candidate paragraph texts, a listing page to
its raw items. -/
structure ScrapeWorld where
  home : Except Nat (List String)
  aktuality : Except Nat (List RawItem)
  rozhlas : Except Nat (List RawItem)
  kalendar : Except Nat (List RawItem)

/-- `fetchHtml(url)` on one page of the world: a non-2xx status becomes the
thrown `Fetch failed` error, success yields the parsed page. -/
def fetchPage {α : Type} (url : String) (r : Except Nat α) : Except String α :=
  match r with
  | .error status => .error (fetchFailMsg status url)
  | .ok v => .ok v

/-- `async function scrapeAktuality()`. -/
def scrapeAktuality (w : ScrapeWorld) : Except String Listing :=
  (fetchPage aktualityUrl w.aktuality).map
    (fun raw => { url := aktualityUrl, items := scrapeListing raw NEWS_LIMIT })

/-- `async function scrapeRozhlas()`. -/
def scrapeRozhlas (w : ScrapeWorld) : Except String Listing :=
  (fetchPage rozhlasUrl w.rozhlas).map
    (fun raw => { url := rozhlasUrl, items := scrapeListing raw BROADCAST_LIMIT })

/-- `async function scrapeKalendar()`. -/
def scrapeKalendar (w : ScrapeWorld) : Except String Listing :=
  (fetchPage kalendarUrl w.kalendar).map
    (fun raw => { url := kalendarUrl, items := scrapeListing raw EVENTS_LIMIT })

/-- The scraper's `main` up to the artifact string: fetch the homepage, then
the three listings, strictly in sequence with no error handling — any thrown
`Fetch failed` propagates and aborts the run (`main().catch(...)` exits the
process) — and otherwise produce the formatted artifact text. -/
def scrapeMain (genTime : String) (w : ScrapeWorld) : Except String String :=
  match fetchPage homeUrl w.home with
  | .error e => .error e
  | .ok homeCands =>
    match scrapeAktuality w with
    | .error e => .error e
    | .ok aktuality =>
      match scrapeRozhlas w with
      | .error e => .error e
      | .ok rozhlas =>
        match scrapeKalendar w with
        | .error e => .error e
        | .ok kalendar =>
          .ok (formatArtifact genTime (extractHomepageNotice homeCands)
            aktuality rozhlas kalendar)

/-! ## Artifact store and upload stage (`scripts/upload-live-to-openai.mjs`)

The filesystem is an association list from absolute paths to file contents;
a write shadows earlier entries for the same path. -/

/-- The modelled filesystem. -/
def FS : Type := List (String × String)

/-- `fs.readFileSync(p, "utf8")`, as an `Option`. -/
def fsRead (fs : FS) (p : String) : Option String :=
  (List.find? (fun e => e.1 == p) fs).map (fun e => e.2)

/-- `fs.existsSync(p)`. -/
def fsExists (fs : FS) (p : String) : Bool :=
  (fsRead fs p).isSome

/-- `fs.writeFileSync(p, c, "utf8")`. -/
def fsWrite (fs : FS) (p c : String) : FS :=
  (p, c) :: fs

/-- The scraper invoked as a subprocess with `LIVE_FILE_PATH=outPath` in its
environment: `resolveOutPath()` returns that explicit path, so a successful
scrape writes the formatted artifact to exactly `outPath`; a fetch failure
makes the subprocess exit nonzero, which `runNode` surfaces as a rejection. -/
def scraperProcess (outPath genTime : String) (w : ScrapeWorld) (fs : FS) :
    Except String FS :=
  match scrapeMain genTime w with
  | .error e => .error e
  | .ok artifact => .ok (fsWrite fs outPath artifact)

/-- The `ArtifactGenerationFailed` error of `ensureLiveFileExists`:
`throw new Error(\x60LIVE file still missing after scrape: ${liveAbsPath}\x60)`. -/
def stillMissingMsg (liveAbsPath : String) : String :=
  "LIVE file still missing after scrape: " ++ liveAbsPath

/-- `async function ensureLiveFileExists(liveAbsPath)`, generic in the
regeneration step (`runNode` runs whatever script sits at
`scripts/live_chomutice_scrape.mjs`; `scraperProcess` is its intended
instance).  The returned `Bool` records whether the regeneration step was
invoked. -/
def ensureLiveFileExists (regen : FS → Except String FS) (liveAbsPath : String)
    (fs : FS) : Except String (FS × Bool) :=
  if fsExists fs liveAbsPath then .ok (fs, false)
  else
    match regen fs with
    | .error e => .error e
    | .ok fs' =>
      if fsExists fs' liveAbsPath then .ok (fs', true)
      else .error (stillMissingMsg liveAbsPath)

/-- `function normalizeText(s)`:
`s.replace(/[“”]/g, c1).replace(/[’]/g, c2).replace(/[–]/g, "-")` where `c1`
is the ASCII double quote and `c2` the ASCII apostrophe. -/
def normalizeChar (c : Char) : Char :=
  if c = '“' ∨ c = '”' then '\x22'
  else if c = '’' then '\x27'
  else if c = '–' then '-' else c

/-- `normalizeText` as a character map over the whole string. -/
def normalizeText (s : String) : String :=
  String.mk (s.data.map normalizeChar)

/-- The filesystem effect of `uploadFileToOpenAI(absPath)`: the artifact is
read back, normalized, and **written back in place** before the normalized
bytes are sent as the multipart body; the returned string is the uploaded
content. -/
def uploadFileEffect (fs : FS) (absPath : String) : Except String (FS × String) :=
  match fsRead fs absPath with
  | none => .error ("ENOENT: " ++ absPath)
  | some content =>
    let content' := normalizeText content
    .ok (fsWrite fs absPath content', content')

/-! ## Vector-store client and cleanup -/

/-- One vector-store membership record as the cleanup pass sees it: the id
used for deletion and the resolved filename (`pickFilename`; entries are
modelled well-formed, with both fields present — the claims assume every
remote call succeeds). -/
structure VsEntry where
  id : Nat
  filename : String
deriving DecidableEq, Repr

/-- The `isLive` filename heuristic of `cleanupOldLiveFiles` (current
revision): exact case-insensitive match with the live filename, or one of the
marker substrings. -/
def isLiveName (liveFilename name : String) : Bool :=
  let lower := strToLower name
  lower == strToLower liveFilename
    || containsSubstr lower "10_live_obec_chomutice"
    || containsSubstr lower "live_obec_chomutice"
    || containsSubstr lower "10_live"

/-- `listVectorStoreFiles(vectorStoreId, limit)`: a single page of at most
`limit` records — no pagination.  The cleanup pass calls it with `limit = 100`. -/
def listVectorStoreFiles (st : List VsEntry) (limit : Nat) : List VsEntry :=
  st.take limit

/-- The `toDelete` list computed by `cleanupOldLiveFiles`: the live-marked
entries among the single listed page of 100. -/
def cleanupTargets (liveFilename : String) (st : List VsEntry) : List VsEntry :=
  (listVectorStoreFiles st 100).filter (fun f => isLiveName liveFilename f.filename)

/-- The outcome of `cleanupOldLiveFiles`: the store after the delete loop, the
count the final `Cleanup hotov (smazáno: ...)` log reports, and (for analysis)
how many deletes actually succeeded and failed. -/
structure CleanupResult where
  store : List VsEntry
  reported : Nat
  deleted : Nat
  failedDeletes : Nat
deriving DecidableEq, Repr

/-- `cleanupOldLiveFiles(vectorStoreId, liveFilename)`: compute `toDelete`,
then delete each target inside `try { ... } catch`, so a failing delete
(modelled by `delOk target.id = false`) is only logged and the loop continues;
the summary line reports `toDelete.length` regardless of per-item outcomes. -/
def cleanupOldLiveFiles (delOk : Nat → Bool) (liveFilename : String)
    (st : List VsEntry) : CleanupResult :=
  let toDelete := cleanupTargets liveFilename st
  let delIds := (toDelete.filter (fun f => delOk f.id)).map (fun f => f.id)
  { store := st.filter (fun f => !(delIds.contains f.id))
    reported := toDelete.length
    deleted := (toDelete.filter (fun f => delOk f.id)).length
    failedDeletes := (toDelete.filter (fun f => !(delOk f.id))).length }

/-- The vector-store effect of `main` (current revision) when the stages all
succeed remotely: optional cleanup (`if (CLEANUP_OLD)`), then
`uploadFileToOpenAI`, producing a fresh `newId`, then
`attachFileToVectorStore`, which attaches exactly that file — the cleanup pass
runs strictly before the upload, so its `toDelete` list is computed on the
pre-upload store. -/
def runMainStore (cleanupOld : Bool) (delOk : Nat → Bool) (newId : Nat)
    (liveFilename : String) (st : List VsEntry) : CleanupResult :=
  let c := if cleanupOld then cleanupOldLiveFiles delOk liveFilename st
           else { store := st, reported := 0, deleted := 0, failedDeletes := 0 }
  { c with store := c.store ++ [{ id := newId, filename := liveFilename }] }

/-- Number of files in the store whose filename matches the live-document
marker heuristic. -/
def countLive (liveFilename : String) (st : List VsEntry) : Nat :=
  (st.filter (fun f => isLiveName liveFilename f.filename)).length

/-- The resolved live filename (`path.basename` of every branch of
`resolveLivePath` without an explicit override). -/
def liveFilenameDefault : String := "10_LIVE_obec_chomutice.txt"

/-! ## Indexing-batch poll (`attachFileToVectorStore`) -/

/-- The caller-visible outcome of the poll loop. -/
inductive PollOutcome where
  | ok
  | indexingFailed (status : String)
  | indexingTimeout
deriving DecidableEq, Repr

/-- `const timeoutMs = 180_000`. -/
def pollTimeoutMs : Nat := 180000

/-- `await sleep(2000)` between polls. -/
def pollIntervalMs : Nat := 2000

/-- The `while (true)` poll loop of `attachFileToVectorStore`, with
`statuses i` the status string the `i`-th status check returns and `elapsed`
the elapsed milliseconds (`Date.now() - start`, advanced by the fixed 2 s
sleep): timeout is checked first (`> timeoutMs`), then `completed` returns,
`failed`/`cancelled` throw `Indexing failed: ${status}`, anything else sleeps
2000 ms and polls again. -/
def pollLoop (statuses : Nat → String) (i elapsed : Nat) : PollOutcome :=
  if _h : elapsed > pollTimeoutMs then .indexingTimeout
  else
    let s := statuses i
    if s = "completed" then .ok
    else if s = "failed" ∨ s = "cancelled" then .indexingFailed s
    else pollLoop statuses (i + 1) (elapsed + pollIntervalMs)
termination_by pollTimeoutMs + 1 - elapsed
decreasing_by simp [pollTimeoutMs, pollIntervalMs] at *; omega

/-- The poll phase of `attachFileToVectorStore` after successful batch
creation: start at the first check, zero elapsed time. -/
def attachPoll (statuses : Nat → String) : PollOutcome :=
  pollLoop statuses 0 0

/-- A status string on which the loop stops. -/
def terminalStatus (s : String) : Bool :=
  s == "completed" || s == "failed" || s == "cancelled"

/-! ## Generic list lemmas -/

theorem dropWhile_self_dropWhile {α : Type} (p : α → Bool) (l : List α) :
    (l.dropWhile p).dropWhile p = l.dropWhile p := by
  induction l with
  | nil => rfl
  | cons x xs ih =>
    by_cases h : p x
    · simp [List.dropWhile_cons, h, ih]
    · simp [List.dropWhile_cons, h]

/-! ## Claim C9 — trailing-punctuation stripping -/

theorem stripTrailing_eq_mk (u : String) :
    stripTrailingPunctuationFromUrl u
      = String.mk ((u.data.reverse.dropWhile isTrailingPunct).reverse) := by
  by_cases hu : u = ""
  · subst hu; rfl
  · simp [stripTrailingPunctuationFromUrl, hu]

/-- Claim C9: stripping trailing URL punctuation is idempotent; an already
clean URL (one whose last character is not in the punctuation class) is
returned unchanged; and the concrete example strips the trailing period of
`https://x/page.html.`. -/
theorem c9_theorem :
    (∀ u : String,
        stripTrailingPunctuationFromUrl (stripTrailingPunctuationFromUrl u)
          = stripTrailingPunctuationFromUrl u)
    ∧ (∀ u : String,
        (u.data.getLast?.all fun c => !(isTrailingPunct c)) = true →
        stripTrailingPunctuationFromUrl u = u)
    ∧ stripTrailingPunctuationFromUrl "https://x/page.html."
        = "https://x/page.html" := by
  refine ⟨fun u => ?_, fun u h => ?_, by decide⟩
  · rw [stripTrailing_eq_mk u, stripTrailing_eq_mk, List.reverse_reverse,
      dropWhile_self_dropWhile]
  · rw [stripTrailing_eq_mk u]
    rcases hrev : u.data.reverse with _ | ⟨c, rest⟩
    · have hdata : u.data = [] := by
        simpa using congrArg List.reverse hrev
      have : u = String.mk u.data := rfl
      rw [this, hdata]
      rfl
    · have hlast : u.data.getLast? = some c := by
        rw [List.getLast?_eq_head?_reverse, hrev]; rfl
      rw [hlast] at h
      simp only [Option.all_some, Bool.not_eq_true'] at h
      rw [List.dropWhile_cons, h]
      simp only [Bool.false_eq_true, if_false, ← hrev, List.reverse_reverse]

/-- Witness for C9: the clean-URL conjunct applied to the concrete clean URL
of the spec example. -/
theorem c9_witness :
    stripTrailingPunctuationFromUrl "https://x/page.html" = "https://x/page.html" :=
  c9_theorem.2.1 "https://x/page.html" (by decide)

/-! ## Claim C7 — homepage notice extraction -/

theorem mem_dedupKeepFirst {seen l : List String} {x : String}
    (hx : x ∈ dedupKeepFirst seen l) : x ∈ l ∧ x ∉ seen := by
  induction l generalizing seen with
  | nil => simp [dedupKeepFirst] at hx
  | cons y ys ih =>
    by_cases hy : y ∈ seen
    · simp only [dedupKeepFirst, if_pos hy] at hx
      rcases ih hx with ⟨h1, h2⟩
      exact ⟨List.mem_cons_of_mem _ h1, h2⟩
    · simp only [dedupKeepFirst, if_neg hy, List.mem_cons] at hx
      rcases hx with rfl | hx
      · exact ⟨List.mem_cons_self _ _, hy⟩
      · rcases ih hx with ⟨h1, h2⟩
        simp only [List.mem_cons, not_or] at h2
        exact ⟨List.mem_cons_of_mem _ h1, h2.2⟩

theorem nodup_dedupKeepFirst (seen l : List String) :
    (dedupKeepFirst seen l).Nodup := by
  induction l generalizing seen with
  | nil => simp [dedupKeepFirst]
  | cons y ys ih =>
    by_cases hy : y ∈ seen
    · simpa only [dedupKeepFirst, if_pos hy] using ih seen
    · simp only [dedupKeepFirst, if_neg hy, List.nodup_cons]
      refine ⟨fun hmem => ?_, ih (y :: seen)⟩
      exact (mem_dedupKeepFirst hmem).2 (List.mem_cons_self _ _)

/-- Counterexample to claim C7 as stated: the candidate sentence
`uzavřeno dnes..` matches the keyword set and is exactly 15 characters long —
inside the claimed inclusive 15–200 bounds, so the claim says it is kept —
yet `extractHomepageNotice` drops it, because the code requires
`text.length > 15` strictly. -/
theorem c7_counterexample :
    keywordTest "uzavřeno dnes.." = true
    ∧ ("uzavřeno dnes.." : String).length = 15
    ∧ extractHomepageNotice ["uzavřeno dnes.."] = [] := by
  refine ⟨by decide, by decide, by decide⟩

/-- Claim C7 (amended): notice extraction keeps only candidates that match the
keyword set and whose length is **strictly** between 15 and 200 characters
(a candidate of exactly 15 or exactly 200 characters is dropped, as are
shorter/longer ones), removes duplicates so identical sentences appear at
most once, and caps the output at 3 notices drawn from the candidates. -/
theorem c7_theorem (cands : List String) :
    (extractHomepageNotice cands).length ≤ 3
    ∧ (extractHomepageNotice cands).Nodup
    ∧ (∀ t ∈ extractHomepageNotice cands,
        t ∈ cands ∧ keywordTest t = true ∧ 15 < t.length ∧ t.length < 200) := by
  refine ⟨?_, ?_, ?_⟩
  · exact List.length_take_le _ _
  · exact (nodup_dedupKeepFirst _ _).sublist (List.take_sublist _ _)
  · intro t ht
    have ht' := List.take_subset _ _ ht
    have hmem := (mem_dedupKeepFirst ht').1
    have := List.mem_filter.mp hmem
    rcases this with ⟨hc, hpred⟩
    simp only [Bool.and_eq_true, decide_eq_true_eq, Bool.not_eq_true',
      beq_eq_false_iff_ne] at hpred
    exact ⟨hc, hpred.2, hpred.1.1.2, hpred.1.2⟩

/-- Witness for C7: a concrete 16-character matching candidate is kept, and
the amended theorem's guarantees evaluate on it. -/
theorem c7_witness :
    extractHomepageNotice ["uzavřeno dnes..."] = ["uzavřeno dnes..."]
    ∧ ("uzavřeno dnes..." ∈ extractHomepageNotice ["uzavřeno dnes..."]
        ∧ keywordTest "uzavřeno dnes..." = true
        ∧ 15 < ("uzavřeno dnes..." : String).length
        ∧ ("uzavřeno dnes..." : String).length < 200) := by
  refine ⟨by decide, ?_⟩
  have h := ( c7_theorem ["uzavřeno dnes..."]).2.2 "uzavřeno dnes..." (by decide)
  exact ⟨by decide, h.2.1, h.2.2.1, h.2.2.2⟩

/-! ## Claim C8 — listing caps and silent dropping -/

theorem parseListingItems_eq (raw : List RawItem) :
    parseListingItems raw = (raw.filter isValidRaw).map itemOfRaw := by
  induction raw with
  | nil => rfl
  | cons r rs ih =>
    simp only [parseListingItems] at ih ⊢
    rw [List.filterMap_cons, List.filter_cons]
    rcases hr : r.href with _ | h
    · have hv : isValidRaw r = false := by simp [isValidRaw, hr]
      simp [hr, hv, ih]
    · by_cases hvalid : r.title = "" ∨ h = ""
      · have hv : isValidRaw r = false := by
          rcases hvalid with h1 | h1 <;> simp [isValidRaw, hr, h1]
        simp [hr, hvalid, hv, ih]
      · have hv : isValidRaw r = true := by
          push_neg at hvalid
          simp [isValidRaw, hr, hvalid.1, hvalid.2]
        simp [hr, hvalid, hv, ih, itemOfRaw]

/-- Claim C8: a listing retains exactly the first `NEWS_LIMIT = 20` valid
items in original document order — the result is the 20-item prefix of the
order-preserving filter of the raw parse —, and elements with an empty title
or no usable detail link are dropped before the cap without any error
(`parseListingItems` is total and simply omits them). -/
theorem c8_theorem (raw : List RawItem) :
    scrapeListing raw NEWS_LIMIT = ((raw.filter isValidRaw).map itemOfRaw).take 20
    ∧ (20 ≤ (raw.filter isValidRaw).length →
        (scrapeListing raw NEWS_LIMIT).length = 20
        ∧ scrapeListing raw NEWS_LIMIT <+: parseListingItems raw) := by
  constructor
  · rw [scrapeListing, parseListingItems_eq]; rfl
  · intro h
    constructor
    · rw [scrapeListing, parseListingItems_eq, List.length_take, List.length_map]
      exact Nat.min_eq_left h
    · exact List.take_prefix _ _

/-- Witness for C8: 50 valid raw items against the cap of 20 retain exactly
20 items. -/
theorem c8_witness :
    (scrapeListing
      (List.replicate 50
        { title := "Titulek", href := some "/aktuality/1.html",
          date := "1. 1. 2024", perex := "Perex" })
      NEWS_LIMIT).length = 20 :=
  ((c8_theorem _).2 (by decide)).1

/-! ## Claim C2 — batch polling -/

theorem pollLoop_timeout (statuses : Nat → String) (i elapsed : Nat)
    (h : elapsed > pollTimeoutMs) :
    pollLoop statuses i elapsed = .indexingTimeout := by
  rw [pollLoop]
  simp [h]

theorem pollLoop_step (statuses : Nat → String) (i elapsed : Nat)
    (hg : ¬ elapsed > pollTimeoutMs) (ht : terminalStatus (statuses i) = false) :
    pollLoop statuses i elapsed
      = pollLoop statuses (i + 1) (elapsed + pollIntervalMs) := by
  simp only [terminalStatus, Bool.or_eq_false_iff, beq_eq_false_iff_ne] at ht
  rw [pollLoop]
  simp [hg, ht.1.1, ht.1.2, ht.2]

theorem pollLoop_terminal (statuses : Nat → String) (i elapsed : Nat)
    (hg : ¬ elapsed > pollTimeoutMs) :
    (statuses i = "completed" → pollLoop statuses i elapsed = .ok)
    ∧ (statuses i = "failed" →
        pollLoop statuses i elapsed = .indexingFailed "failed")
    ∧ (statuses i = "cancelled" →
        pollLoop statuses i elapsed = .indexingFailed "cancelled") := by
  refine ⟨fun h => ?_, fun h => ?_, fun h => ?_⟩ <;>
    (rw [pollLoop]; simp [hg, h])

theorem pollLoop_skip (statuses : Nat → String) :
    ∀ (n j : Nat),
      (∀ m, j ≤ m → m < j + n →
        terminalStatus (statuses m) = false ∧ pollIntervalMs * m ≤ pollTimeoutMs) →
      pollLoop statuses j (pollIntervalMs * j)
        = pollLoop statuses (j + n) (pollIntervalMs * (j + n)) := by
  intro n
  induction n with
  | zero => intro j _; rfl
  | succ n ih =>
    intro j hm
    have h0 := hm j (Nat.le_refl j) (by omega)
    have hstep := pollLoop_step statuses j (pollIntervalMs * j) (by omega) h0.1
    rw [hstep]
    have harith : pollIntervalMs * j + pollIntervalMs = pollIntervalMs * (j + 1) := by
      ring
    rw [harith, ih (j + 1) (fun m hm1 hm2 => hm m (by omega) (by omega))]
    have : (j + 1) + n = j + (n + 1) := by omega
    rw [this]

/-- Claim C2: in the poll loop of `attachFileToVectorStore` (checks spaced by
the fixed 2000 ms sleep against the 180 000 ms budget), if the first terminal
status observed within the budget is `completed` the poll returns success;
if it is `failed` or `cancelled` the caller gets the indexing-failure error
carrying that status; and if every check inside the budget is non-terminal
the caller gets the timeout error. -/
theorem c2_theorem :
    (∀ (statuses : Nat → String) (i : Nat),
      (∀ j, j < i → terminalStatus (statuses j) = false) →
      pollIntervalMs * i ≤ pollTimeoutMs →
      ((statuses i = "completed" → attachPoll statuses = .ok)
       ∧ (statuses i = "failed" →
            attachPoll statuses = .indexingFailed "failed")
       ∧ (statuses i = "cancelled" →
            attachPoll statuses = .indexingFailed "cancelled")))
    ∧ (∀ statuses : Nat → String,
      (∀ j, pollIntervalMs * j ≤ pollTimeoutMs →
        terminalStatus (statuses j) = false) →
      attachPoll statuses = .indexingTimeout) := by
  constructor
  · intro statuses i hnt hbudget
    have h0 : attachPoll statuses = pollLoop statuses i (pollIntervalMs * i) := by
      have := pollLoop_skip statuses i 0 (fun m hm1 hm2 => by
        refine ⟨hnt m (by omega), ?_⟩
        have : pollIntervalMs * m ≤ pollIntervalMs * i :=
          Nat.mul_le_mul_left _ (by omega)
        omega)
      simpa [attachPoll] using this
    rw [h0]
    exact pollLoop_terminal statuses i (pollIntervalMs * i) (by omega)
  · intro statuses hnt
    have h0 : attachPoll statuses = pollLoop statuses 91 (pollIntervalMs * 91) := by
      have := pollLoop_skip statuses 91 0 (fun m hm1 hm2 => by
        have hbud : pollIntervalMs * m ≤ pollTimeoutMs := by
          simp only [pollIntervalMs, pollTimeoutMs]
          omega
        exact ⟨hnt m hbud, hbud⟩)
      simpa [attachPoll] using this
    rw [h0]
    exact pollLoop_timeout statuses 91 _ (by simp [pollIntervalMs, pollTimeoutMs])

/-- Witness for C2: a batch whose third status check reports `completed`
(after two `in_progress` checks) makes the poll succeed. -/
theorem c2_witness :
    attachPoll (fun j => if j = 2 then "completed" else "in_progress")
      = .ok :=
  (c2_theorem.1 (fun j => if j = 2 then "completed" else "in_progress") 2
    (by intro j hj; interval_cases j <;> rfl)
    (by simp [pollIntervalMs, pollTimeoutMs])).1 (by simp)

/-! ## Claim C3 — artifact regeneration -/

theorem jsTrim_ne_empty {s : String} (c : Char) (hc : isJsWs c = false)
    (hmem : c ∈ s.data) : jsTrim s ≠ "" := by
  intro hemp
  have hdata : ((s.data.dropWhile isJsWs).reverse.dropWhile isJsWs).reverse = [] :=
    congrArg String.data hemp
  have h1 : (s.data.dropWhile isJsWs).reverse.dropWhile isJsWs = [] := by
    simpa using hdata
  have hcdrop : c ∈ s.data.dropWhile isJsWs := by
    have hsplit := List.takeWhile_append_dropWhile (p := isJsWs) (l := s.data)
    rw [← hsplit] at hmem
    rcases List.mem_append.mp hmem with htake | hdrop
    · exact absurd (List.mem_takeWhile_imp htake) (by simp [hc])
    · exact hdrop
  have := List.dropWhile_eq_nil_iff.mp h1 c (List.mem_reverse.mpr hcdrop)
  simp [hc] at this

theorem str_data_append (s t : String) : (s ++ t).data = s.data ++ t.data := rfl

set_option maxRecDepth 4000 in
theorem formatArtifact_ne_empty (genTime : String) (notices : List String)
    (aktuality rozhlas kalendar : Listing) :
    formatArtifact genTime notices aktuality rozhlas kalendar ≠ "" := by
  rw [formatArtifact]
  apply jsTrim_ne_empty 'O' (by decide)
  have hm : 'O' ∈ artifactHeaderPre.data := by decide
  simp [str_data_append, List.mem_append, hm]

theorem fsRead_write_self (fs : FS) (p c : String) :
    fsRead (fsWrite fs p c) p = some c := by
  simp [fsRead, fsWrite, List.find?_cons]

theorem scrapeMain_ok_ne_empty {gt : String} {w : ScrapeWorld} {a : String}
    (h : scrapeMain gt w = .ok a) : a ≠ "" := by
  rcases hh : w.home with s | cands <;>
    rcases ha : w.aktuality with s1 | akt <;>
      rcases hr : w.rozhlas with s2 | roz <;>
        rcases hk : w.kalendar with s3 | kal <;>
          simp only [scrapeMain, scrapeAktuality, scrapeRozhlas, scrapeKalendar,
            fetchPage, hh, ha, hr, hk, Except.map, reduceCtorEq] at h
  rw [Except.ok.injEq] at h
  rw [← h]
  exact formatArtifact_ne_empty _ _ _ _ _

/-- Claim C3: `ensureLiveFileExists` (a) returns immediately, without invoking
the regeneration step, when the artifact is already present; (b) when the
artifact is absent it invokes the scraper configured (via `LIVE_FILE_PATH`)
to write to exactly the resolved path, after which the path exists with
non-empty content; and (c) when the regeneration step completes but the file
is still missing it fails with the `LIVE file still missing after scrape`
error — never a silent success. -/
theorem c3_theorem :
    (∀ (regen : FS → Except String FS) (p : String) (fs : FS),
        fsExists fs p = true →
        ensureLiveFileExists regen p fs = .ok (fs, false))
    ∧ (∀ (p gt : String) (w : ScrapeWorld) (fs : FS) (a : String),
        fsExists fs p = false →
        scrapeMain gt w = .ok a →
        ensureLiveFileExists (scraperProcess p gt w) p fs
            = .ok (fsWrite fs p a, true)
          ∧ fsExists (fsWrite fs p a) p = true
          ∧ fsRead (fsWrite fs p a) p = some a
          ∧ a ≠ "")
    ∧ (∀ (regen : FS → Except String FS) (p : String) (fs fs' : FS),
        fsExists fs p = false →
        regen fs = .ok fs' →
        fsExists fs' p = false →
        ensureLiveFileExists regen p fs = .error (stillMissingMsg p)) := by
  refine ⟨fun regen p fs hex => ?_, fun p gt w fs a hex hok => ?_,
    fun regen p fs fs' hex hr hmiss => ?_⟩
  · simp [ensureLiveFileExists, hex]
  · have hproc : scraperProcess p gt w fs = .ok (fsWrite fs p a) := by
      simp [scraperProcess, hok]
    have hexists : fsExists (fsWrite fs p a) p = true := by
      simp [fsExists, fsRead_write_self]
    refine ⟨?_, hexists, fsRead_write_self fs p a, scrapeMain_ok_ne_empty hok⟩
    simp [ensureLiveFileExists, hex, hproc, hexists]
  · simp [ensureLiveFileExists, hex, hr, hmiss]

/-- Witness for C3: on the empty filesystem and a network where every page
fetch succeeds with no items, the artifact is regenerated at the resolved
path with non-empty content; and with an inert regeneration step the
still-missing error is raised. -/
theorem c3_witness :
    (ensureLiveFileExists (fun fs => .ok fs) "/tmp/knowledge/10_LIVE_obec_chomutice.txt" []
        = .error (stillMissingMsg "/tmp/knowledge/10_LIVE_obec_chomutice.txt"))
    ∧ ∃ a : String,
        scrapeMain "2024-01-01T00:00:00.000Z"
            { home := .ok [], aktuality := .ok [], rozhlas := .ok [], kalendar := .ok [] }
          = .ok a
        ∧ ensureLiveFileExists
            (scraperProcess "/tmp/knowledge/10_LIVE_obec_chomutice.txt"
              "2024-01-01T00:00:00.000Z"
              { home := .ok [], aktuality := .ok [], rozhlas := .ok [], kalendar := .ok [] })
            "/tmp/knowledge/10_LIVE_obec_chomutice.txt" []
          = .ok (fsWrite [] "/tmp/knowledge/10_LIVE_obec_chomutice.txt" a, true)
        ∧ a ≠ "" := by
  constructor
  · exact c3_theorem.2.2 (fun fs => .ok fs) _ [] [] (by decide) rfl (by decide)
  · refine ⟨formatArtifact "2024-01-01T00:00:00.000Z" [] ⟨aktualityUrl, []⟩
      ⟨rozhlasUrl, []⟩ ⟨kalendarUrl, []⟩, rfl, ?_⟩
    have h := c3_theorem.2.1 "/tmp/knowledge/10_LIVE_obec_chomutice.txt"
      "2024-01-01T00:00:00.000Z"
      { home := .ok [], aktuality := .ok [], rozhlas := .ok [], kalendar := .ok [] }
      [] _ (by decide) rfl
    exact ⟨h.1, h.2.2.2⟩

/-! ## Claim C5 — listing fetch failure -/

/-- A network where the homepage and two listings are fetchable but the
news listing answers 404. -/
def world404 : ScrapeWorld :=
  { home := .ok ["Obecní úřad bude mimořádně uzavřen."]
    aktuality := .error 404
    rozhlas := .ok [{ title := "Hlášení", href := some "/h1.html", date := "", perex := "" }]
    kalendar := .ok [{ title := "Akce", href := some "/a1.html", date := "", perex := "" }] }

/-- Counterexample to claim C5 as stated: with the homepage and the other two
listings fetchable but the news listing answering 404, the scraper does
**not** produce the other sections — the `Fetch failed` error propagates out
of `main` and no artifact at all is produced. -/
theorem c5_counterexample :
    scrapeMain "2024-01-01T00:00:00.000Z" world404
        = .error (fetchFailMsg 404 aktualityUrl)
    ∧ ∀ a : String, scrapeMain "2024-01-01T00:00:00.000Z" world404 ≠ .ok a := by
  refine ⟨rfl, fun a h => ?_⟩
  rw [show scrapeMain "2024-01-01T00:00:00.000Z" world404
      = .error (fetchFailMsg 404 aktualityUrl) from rfl] at h
  exact Except.noConfusion h

/-- Claim C5 (amended): a non-2xx response for a listing page is a hard
failure for that page, surfaced as an error carrying the HTTP status and the
page URL; but in this revision the failure propagates out of the scraper's
`main`: the whole scrape aborts, the artifact is not written, and no section
— neither the homepage notices nor the other listings — is produced. -/
theorem c5_theorem (gt p : String) (w : ScrapeWorld) (status : Nat)
    (cands : List String) (fs : FS)
    (hhome : w.home = .ok cands) (hfail : w.aktuality = .error status) :
    scrapeMain gt w = .error (fetchFailMsg status aktualityUrl)
    ∧ scraperProcess p gt w fs = .error (fetchFailMsg status aktualityUrl)
    ∧ fetchFailMsg status aktualityUrl
        = "Fetch failed " ++ toString status ++ " " ++ aktualityUrl := by
  have h1 : scrapeMain gt w = .error (fetchFailMsg status aktualityUrl) := by
    simp [scrapeMain, scrapeAktuality, fetchPage, hhome, hfail, Except.map]
  exact ⟨h1, by simp [scraperProcess, h1], rfl⟩

/-- Witness for C5: the amended behaviour evaluated on the concrete
404 world. -/
theorem c5_witness :
    scraperProcess "/tmp/knowledge/10_LIVE_obec_chomutice.txt"
        "2024-01-01T00:00:00.000Z" world404 []
      = .error (fetchFailMsg 404 aktualityUrl) :=
  ( c5_theorem "2024-01-01T00:00:00.000Z" "/tmp/knowledge/10_LIVE_obec_chomutice.txt"
    world404 404 _ [] rfl rfl).2.1

/-! ## Claim C6 — the upload stage and the artifact bytes -/

/-- The artifact the Artifact Store produces for an empty scrape (every page
fetched, no items found) at a fixed timestamp. -/
def artifactEmptyScrape : String :=
  formatArtifact "2024-01-01T00:00:00.000Z" []
    { url := aktualityUrl, items := [] }
    { url := rozhlasUrl, items := [] }
    { url := kalendarUrl, items := [] }

/-- The default resolved live path in the serverless branch. -/
def livePathTmp : String := "/tmp/knowledge/10_LIVE_obec_chomutice.txt"

set_option maxRecDepth 16000 in
/-- Counterexample to claim C6 as stated: `uploadFileToOpenAI` rewrites the
artifact file in place with `normalizeText` of its content before uploading,
and the artifact the store produces contains an en dash in its fixed header,
so the on-disk bytes after the upload stage differ from the bytes the
Artifact Store produced. -/
theorem c6_counterexample :
    uploadFileEffect (fsWrite [] livePathTmp artifactEmptyScrape) livePathTmp
        = .ok (fsWrite (fsWrite [] livePathTmp artifactEmptyScrape) livePathTmp
                 (normalizeText artifactEmptyScrape),
               normalizeText artifactEmptyScrape)
    ∧ fsRead (fsWrite (fsWrite [] livePathTmp artifactEmptyScrape) livePathTmp
                 (normalizeText artifactEmptyScrape)) livePathTmp
        = some (normalizeText artifactEmptyScrape)
    ∧ normalizeText artifactEmptyScrape ≠ artifactEmptyScrape := by
  refine ⟨?_, fsRead_write_self _ _ _, by decide⟩
  rw [uploadFileEffect, fsRead_write_self]

/-- Claim C6 (amended): the upload stage does mutate the artifact file: it
rewrites it in place with the text-normalized content (`“”` to `"`, `’` to
the ASCII apostrophe, `–` to `-`), so afterwards the on-disk bytes are
`normalizeText` of the bytes the Artifact Store produced — equal to the
original only when no such character occurs; files at every other path are
untouched. -/
theorem c6_theorem (fs : FS) (p c : String) (h : fsRead fs p = some c) :
    uploadFileEffect fs p
        = .ok (fsWrite fs p (normalizeText c), normalizeText c)
    ∧ fsRead (fsWrite fs p (normalizeText c)) p = some (normalizeText c)
    ∧ ∀ q, q ≠ p → fsRead (fsWrite fs p (normalizeText c)) q = fsRead fs q := by
  refine ⟨by rw [uploadFileEffect, h], fsRead_write_self _ _ _, fun q hq => ?_⟩
  have hbeq : (p == q) = false := by
    simp [hq.symm]
  simp [fsRead, fsWrite, List.find?_cons, hbeq]

/-- Witness for C6: the amended rewrite behaviour evaluated on a one-file
filesystem. -/
theorem c6_witness :
    uploadFileEffect [(livePathTmp, "text s pomlčkou – konec")] livePathTmp
      = .ok (fsWrite [(livePathTmp, "text s pomlčkou – konec")] livePathTmp
               (normalizeText "text s pomlčkou – konec"),
             normalizeText "text s pomlčkou – konec") :=
  (c6_theorem [(livePathTmp, "text s pomlčkou – konec")] livePathTmp
    "text s pomlčkou – konec" (by decide)).1

/-! ## Claims C1, C4, C10 — cleanup, upload, attach -/

theorem isLiveName_self (lf : String) : isLiveName lf lf = true := by
  simp [isLiveName]

theorem countLive_append (lf : String) (a b : List VsEntry) :
    countLive lf (a ++ b) = countLive lf a + countLive lf b := by
  simp [countLive, List.filter_append]

theorem countLive_cleanup_zero (delOk : Nat → Bool) (lf : String)
    (st : List VsEntry) (hlen : st.length ≤ 100) (hok : ∀ n, delOk n = true) :
    countLive lf (cleanupOldLiveFiles delOk lf st).store = 0 := by
  simp only [cleanupOldLiveFiles, countLive, cleanupTargets, listVectorStoreFiles,
    List.take_of_length_le hlen, hok, List.filter_true]
  rw [List.length_eq_zero, List.filter_eq_nil_iff]
  intro e he
  rcases List.mem_filter.mp he with ⟨hest, hkeep⟩
  intro hlive
  have hmem : e.id ∈ (List.filter (fun f => isLiveName lf f.filename) st).map
      (fun f => f.id) :=
    List.mem_map.mpr ⟨e, List.mem_filter.mpr ⟨hest, hlive⟩, rfl⟩
  simp at hkeep
  exact hkeep e hest hlive rfl

theorem cleanup_store_length (delOk : Nat → Bool) (lf : String)
    (st : List VsEntry) :
    (cleanupOldLiveFiles delOk lf st).store.length ≤ st.length :=
  List.length_filter_le _ _

theorem run_leaves_one_live (delOk : Nat → Bool) (lf : String)
    (st : List VsEntry) (newId : Nat) (hlen : st.length ≤ 100)
    (hok : ∀ n, delOk n = true) :
    countLive lf (runMainStore true delOk newId lf st).store = 1 := by
  simp only [runMainStore, if_true, countLive_append,
    countLive_cleanup_zero delOk lf st hlen hok]
  simp [countLive, isLiveName_self]

/-- Counterexample to claim C1 as stated: `cleanupOldLiveFiles` examines only
the single `limit = 100` page of `listVectorStoreFiles`, so with 101 files in
the store — the 101st being a stale live-marked copy — a fully successful run
(every list/delete/upload/attach call succeeds) ends with **two** files
matching the live marker, not one. -/
theorem c1_counterexample :
    countLive "10_LIVE_obec_chomutice.txt"
      (runMainStore true (fun _ => true) 999 "10_LIVE_obec_chomutice.txt"
        (((List.range 100).map (fun i => { id := i, filename := "doc.txt" }))
          ++ [{ id := 100, filename := "stare_10_live_obec_chomutice.txt" }])).store
      = 2 := by
  decide

/-- Claim C1 (amended): provided the store holds at most 100 files — so the
single listed page covers it — a run of `main` with cleanup on, in which
every remote call succeeds, leaves exactly one file matching the live marker;
and (starting from at most 99 files, so that the second run's page again
covers the store) running the pipeline twice in a row still leaves exactly
one live file, not two. -/
theorem c1_theorem (st : List VsEntry) (delOk : Nat → Bool)
    (newId newId2 : Nat) (lf : String) (hok : ∀ n, delOk n = true) :
    (st.length ≤ 100 →
      countLive lf (runMainStore true delOk newId lf st).store = 1)
    ∧ (st.length ≤ 99 →
      countLive lf (runMainStore true delOk newId2 lf
        (runMainStore true delOk newId lf st).store).store = 1) := by
  refine ⟨fun h => run_leaves_one_live delOk lf st newId h hok, fun h => ?_⟩
  apply run_leaves_one_live delOk lf _ newId2 _ hok
  have h1 : (runMainStore true delOk newId lf st).store.length
      ≤ st.length + 1 := by
    simp only [runMainStore, if_true, List.length_append, List.length_cons,
      List.length_nil]
    have := cleanup_store_length delOk lf st
    omega
  omega

/-- Witness for C1: a store holding one stale live copy and one unrelated
document; the run deletes the stale copy and attaches the fresh one, leaving
exactly one live file, and a second run keeps it at one. -/
theorem c1_witness :
    countLive "10_LIVE_obec_chomutice.txt"
      (runMainStore true (fun _ => true) 7 "10_LIVE_obec_chomutice.txt"
        [{ id := 1, filename := "10_LIVE_obec_chomutice.txt" },
         { id := 2, filename := "rozpocet_2024.pdf" }]).store = 1
    ∧ countLive "10_LIVE_obec_chomutice.txt"
      (runMainStore true (fun _ => true) 8 "10_LIVE_obec_chomutice.txt"
        (runMainStore true (fun _ => true) 7 "10_LIVE_obec_chomutice.txt"
          [{ id := 1, filename := "10_LIVE_obec_chomutice.txt" },
           { id := 2, filename := "rozpocet_2024.pdf" }]).store).store = 1 := by
  have h := c1_theorem
    [{ id := 1, filename := "10_LIVE_obec_chomutice.txt" },
     { id := 2, filename := "rozpocet_2024.pdf" }]
    (fun _ => true) 7 8 "10_LIVE_obec_chomutice.txt" (fun _ => rfl)
  exact ⟨h.1 (by decide), h.2 (by decide)⟩

/-- The two-stale-files store of the C4 scenario: the first stale live copy
(whose delete will throw), then a second one (whose delete succeeds). -/
def c4Store : List VsEntry :=
  [{ id := 1, filename := "10_LIVE_obec_chomutice.txt" },
   { id := 2, filename := "archiv_10_live.txt" }]

/-- Delete outcomes of the C4 scenario: the delete of id 1 throws, the delete
of id 2 succeeds. -/
def c4DelOk : Nat → Bool := fun n => n == 2

/-- Counterexample to claim C4 as stated: in the two-stale-files scenario
with the first delete throwing, the run does continue and the new file is
attached, and indeed one delete succeeded and one failed — but the final
report of `cleanupOldLiveFiles` is the single line
`Cleanup hotov (smazáno: ${toDelete.length})`, which counts **2** "deleted"
files (the number of delete targets); it does not report one deleted file
and one failed delete. -/
theorem c4_counterexample :
    (runMainStore true c4DelOk 9 "10_LIVE_obec_chomutice.txt" c4Store).reported = 2
    ∧ (runMainStore true c4DelOk 9 "10_LIVE_obec_chomutice.txt" c4Store).deleted = 1
    ∧ (runMainStore true c4DelOk 9 "10_LIVE_obec_chomutice.txt" c4Store).failedDeletes = 1
    ∧ (runMainStore true c4DelOk 9 "10_LIVE_obec_chomutice.txt" c4Store).reported
        ≠ (runMainStore true c4DelOk 9 "10_LIVE_obec_chomutice.txt" c4Store).deleted := by
  decide

/-- Claim C4 (amended): when cleanup identifies two stale live-marked files
and the delete of the first throws while the delete of the second succeeds,
the per-item `try/catch` makes the failure non-fatal: the run continues to
the upload and attach stages and the newly uploaded file ends up attached
(the run reaches `Indexed`); one file was actually deleted and one delete
failed; but the printed cleanup summary reports the number of delete targets
(2) as `smazáno`, without a separate failed-delete count. -/
theorem c4_theorem (st : List VsEntry) (delOk : Nat → Bool) (newId : Nat)
    (lf : String) (a b : VsEntry)
    (htargets : cleanupTargets lf st = [a, b])
    (ha : delOk a.id = false) (hb : delOk b.id = true) :
    (runMainStore true delOk newId lf st).reported = 2
    ∧ (runMainStore true delOk newId lf st).deleted = 1
    ∧ (runMainStore true delOk newId lf st).failedDeletes = 1
    ∧ { id := newId, filename := lf } ∈ (runMainStore true delOk newId lf st).store := by
  simp only [runMainStore, if_true, cleanupOldLiveFiles, htargets]
  refine ⟨rfl, ?_, ?_, ?_⟩
  · simp [List.filter_cons, ha, hb]
  · simp [List.filter_cons, ha, hb]
  · exact List.mem_append.mpr (Or.inr (List.mem_singleton.mpr rfl))

/-- Witness for C4: the amended statement evaluated on the concrete
two-stale-files scenario. -/
theorem c4_witness :
    (runMainStore true c4DelOk 9 "10_LIVE_obec_chomutice.txt" c4Store).deleted = 1
    ∧ { id := 9, filename := "10_LIVE_obec_chomutice.txt" }
        ∈ (runMainStore true c4DelOk 9 "10_LIVE_obec_chomutice.txt" c4Store).store := by
  have h := c4_theorem c4Store c4DelOk 9 "10_LIVE_obec_chomutice.txt"
    { id := 1, filename := "10_LIVE_obec_chomutice.txt" }
    { id := 2, filename := "archiv_10_live.txt" }
    (by decide) (by decide) (by decide)
  exact ⟨h.2.1, h.2.2.2⟩

/-- Claim C10: within one run of `main`, the cleanup pass (and its
`toDelete` computation) happens strictly before the upload, so the freshly
produced file id is never among this run's delete targets, the resulting
store is the cleaned pre-upload store with the new file appended by the
attach stage, and a run that reaches the terminal success state leaves its
own newly uploaded file attached. -/
theorem c10_theorem (st : List VsEntry) (delOk : Nat → Bool) (newId : Nat)
    (lf : String) (hfresh : newId ∉ st.map (fun f => f.id)) :
    (∀ f ∈ cleanupTargets lf st, f.id ≠ newId)
    ∧ (runMainStore true delOk newId lf st).store
        = (cleanupOldLiveFiles delOk lf st).store
            ++ [{ id := newId, filename := lf }]
    ∧ { id := newId, filename := lf } ∈ (runMainStore true delOk newId lf st).store := by
  refine ⟨fun f hf => ?_, rfl, ?_⟩
  · have hmem : f ∈ st := List.take_subset 100 st (List.mem_filter.mp hf).1
    intro hid
    exact hfresh (List.mem_map.mpr ⟨f, hmem, hid⟩)
  · exact List.mem_append.mpr (Or.inr (List.mem_singleton.mpr rfl))

/-- Witness for C10: with a fresh id 42 over a store of ids 1 and 2, the new
live file is attached and was no delete target. -/
theorem c10_witness :
    { id := 42, filename := "10_LIVE_obec_chomutice.txt" }
      ∈ (runMainStore true (fun _ => true) 42 "10_LIVE_obec_chomutice.txt"
          c4Store).store :=
  (c10_theorem c4Store (fun _ => true) 42 "10_LIVE_obec_chomutice.txt"
    (by decide)).2.2

end ObecChomutice
